import Mathlib

/- Shallow embedding of the code-emission core of the binding generator
   (generator.cpp): the type translator, the minimal-constructor
   synthesizer, the template-substitution and code-reindentation
   utilities, the generation driver counters, and the package-to-path
   mapping.  Machine strings are modeled as Lean strings (lists of
   characters); the external type model consumed by the generator is
   modeled as immutable record data. -/

set_option maxRecDepth 10000
set_option linter.unnecessarySeqFocus false

namespace GeneratorCore

/- ## String primitives mirroring the Qt string operations used by the source -/

/-- Whitespace as tested by the character space test and by a whitespace
regular-expression class, restricted to ASCII: space, tab, line feed,
vertical tab, form feed, carriage return. -/
def isQSpace (c : Char) : Bool :=
  c = ' ' || c = Char.ofNat 9 || c = Char.ofNat 10 || c = Char.ofNat 11 ||
  c = Char.ofNat 12 || c = Char.ofNat 13

/-- Structural worker for the replacement scan; the first argument bounds
the number of scan steps and is instantiated with the length of the
scanned list, which never runs out because every step consumes at least
one character. -/
def replaceAllGo (pat rep : List Char) : Nat → List Char → List Char
  | 0, s => s
  | _ + 1, [] => []
  | n + 1, c :: rest =>
    if pat ≠ [] ∧ pat.isPrefixOf (c :: rest) then
      rep ++ replaceAllGo pat rep n (rest.drop (pat.length - 1))
    else
      c :: replaceAllGo pat rep n rest

/-- Replace every occurrence of a pattern in a character list, scanning left
to right and continuing after the replacement text (replacement text is
never rescanned), as the Qt in-place string replace does.  An empty
pattern replaces nothing. -/
def replaceAllL (pat rep s : List Char) : List Char :=
  replaceAllGo pat rep s.length s

/-- Substring containment on character lists (the Qt contains test). -/
def containsSubL (pat s : List Char) : Bool :=
  match s with
  | [] => decide (pat = [])
  | _ :: rest => pat.isPrefixOf s || containsSubL pat rest

/-- String wrapper for [replaceAllL]. -/
def qreplace (s pat rep : String) : String :=
  String.mk (replaceAllL pat.data rep.data s.data)

/-- String wrapper for [containsSubL]. -/
def containsSub (s pat : String) : Bool :=
  containsSubL pat.data s.data

/-- The Qt endsWith test. -/
def qEndsWith (s pat : String) : Bool :=
  pat.data.isSuffixOf s.data

/-- The Qt startsWith test. -/
def qStartsWith (s pat : String) : Bool :=
  pat.data.isPrefixOf s.data

/-- The Qt remove of the first n characters (remove at position 0). -/
def qRemoveLeft (s : String) (n : Nat) : String :=
  String.mk (s.data.drop n)

/-- The Qt chop of the last n characters. -/
def qChop (s : String) (n : Nat) : String :=
  String.mk (s.data.take (s.data.length - n))

/-- The Qt trimmed: whitespace removed from both ends. -/
def qTrim (s : String) : String :=
  String.mk (((s.data.dropWhile isQSpace).reverse.dropWhile isQSpace).reverse)

/-- The Qt remove of len characters at a signed position: a negative
position counts from the end; an out-of-range position removes nothing;
a removal reaching past the end truncates. -/
def qstringRemoveAt (s : String) (pos : Int) (len : Nat) : String :=
  let size : Int := Int.ofNat s.data.length
  let pos2 : Int := if pos < 0 then pos + size else pos
  if pos2 < 0 || pos2 ≥ size then s
  else
    let p := pos2.toNat
    if s.data.length - p ≤ len then String.mk (s.data.take p)
    else String.mk (s.data.take p ++ s.data.drop (p + len))

/-- The Qt lastIndexOf: the greatest index at which the pattern occurs,
or -1 when it does not occur. -/
def qLastIndexOf (s pat : String) : Int :=
  match ((List.range (s.data.length + 1)).filter
      (fun i => pat.data.isPrefixOf (s.data.drop i))).getLast? with
  | some i => Int.ofNat i
  | none => -1

/- ## The external type model (read-only data consumed by the generator) -/

/-- A type descriptor of the external type model: kind discriminants, the
qualified name, and the optional declared default-construction
expression (empty when absent).  The hasDefaultConstructor test of the
source model is the non-emptiness of that expression. -/
structure TypeEntry where
  name : String
  qualifiedCppName : String
  isCppPrimitive : Bool
  isEnum : Bool
  isFlags : Bool
  isPrimitive : Bool
  isComplex : Bool
  isObject : Bool
  isQObject : Bool
  isValue : Bool
  isVoid : Bool
  isGenericClass : Bool
  defaultConstructor : String
deriving DecidableEq, Repr

/-- The source model exposes hasDefaultConstructor as non-emptiness of the
stored default-construction expression. -/
def TypeEntry.hasDefaultConstructor (t : TypeEntry) : Bool :=
  t.defaultConstructor != ""

/-- Payload of a type instantiation: its descriptor, indirection depth,
qualifier flags, usage-pattern flags, the optional array element type,
the optional original template type, and the original textual
description.  The parameter ties the recursive fields. -/
structure AMTypeData (α : Type) where
  typeEntry : TypeEntry
  indirections : Nat
  isConstant : Bool
  isReference : Bool
  isContainer : Bool
  isNativePointer : Bool
  isValuePointer : Bool
  isObject : Bool
  isQObject : Bool
  isEnum : Bool
  isFlags : Bool
  isArray : Bool
  arrayElementType : Option α
  originalTemplateType : Option α
  originalTypeDescription : String

/-- A type instantiation of the external type model. -/
inductive AbstractMetaType : Type where
  | mk : AMTypeData AbstractMetaType → AbstractMetaType

/-- Projection to the payload record. -/
def AbstractMetaType.data : AbstractMetaType → AMTypeData AbstractMetaType
  | .mk d => d

def AbstractMetaType.typeEntry (t : AbstractMetaType) : TypeEntry := t.data.typeEntry

def AbstractMetaType.indirections (t : AbstractMetaType) : Nat := t.data.indirections

def AbstractMetaType.isConstant (t : AbstractMetaType) : Bool := t.data.isConstant

def AbstractMetaType.isReference (t : AbstractMetaType) : Bool := t.data.isReference

def AbstractMetaType.isContainer (t : AbstractMetaType) : Bool := t.data.isContainer

def AbstractMetaType.isNativePointer (t : AbstractMetaType) : Bool := t.data.isNativePointer

def AbstractMetaType.isValuePointer (t : AbstractMetaType) : Bool := t.data.isValuePointer

def AbstractMetaType.isObject (t : AbstractMetaType) : Bool := t.data.isObject

def AbstractMetaType.isQObject (t : AbstractMetaType) : Bool := t.data.isQObject

def AbstractMetaType.isEnum (t : AbstractMetaType) : Bool := t.data.isEnum

def AbstractMetaType.isFlags (t : AbstractMetaType) : Bool := t.data.isFlags

def AbstractMetaType.isArray (t : AbstractMetaType) : Bool := t.data.isArray

def AbstractMetaType.arrayElementType (t : AbstractMetaType) : Option AbstractMetaType :=
  t.data.arrayElementType

def AbstractMetaType.originalTemplateType (t : AbstractMetaType) : Option AbstractMetaType :=
  t.data.originalTemplateType

def AbstractMetaType.originalTypeDescription (t : AbstractMetaType) : String :=
  t.data.originalTypeDescription

/-- Modelled from the spec: the canonical textual signature of a type
instantiation, produced by the external type model (its cppSignature):
an optional leading const qualifier, the qualified name of the
descriptor, one pointer marker per level of indirection, and an
optional trailing reference marker.  Template argument lists are folded
into the qualified name. -/
def AbstractMetaType.cppSignature (t : AbstractMetaType) : String :=
  (if t.isConstant then "const " else "")
    ++ t.typeEntry.qualifiedCppName
    ++ String.mk (List.replicate t.indirections '*')
    ++ (if t.isReference then "&" else "")

/-- The setter clearing or setting the const qualifier; the canonical
signature of the result is recomputed from the updated fields, as in
the source model where the cached signature is invalidated. -/
def AbstractMetaType.setConstant (t : AbstractMetaType) (b : Bool) : AbstractMetaType :=
  match t with
  | .mk d => .mk { d with isConstant := b }

/-- The setter clearing or setting the reference qualifier. -/
def AbstractMetaType.setReference (t : AbstractMetaType) (b : Bool) : AbstractMetaType :=
  match t with
  | .mk d => .mk { d with isReference := b }

/-- An argument of a function of the external model: its type, name,
zero-based index, and the original and effective default-value
expressions (empty when absent). -/
structure AbstractMetaArgument where
  name : String
  argumentIndex : Nat
  type : AbstractMetaType
  originalDefaultValueExpression : String
  defaultValueExpression : String

/-- A function of the external model, as consumed by the generator:
constructor flags, arguments, return type and original name.  The
owning class is supplied separately where the source reaches it through
the function. -/
structure AbstractMetaFunction where
  originalName : String
  isUserAdded : Bool
  isPrivate : Bool
  isCopyConstructor : Bool
  arguments : List AbstractMetaArgument
  returnType : Option AbstractMetaType

/-- A class of the external model: its descriptor, simple name, package,
and constructor list (the constructor query of the source model). -/
structure AbstractMetaClass where
  typeEntry : TypeEntry
  name : String
  package : String
  constructors : List AbstractMetaFunction

/-- The qualified name of a class is the qualified name of its descriptor,
as in the source model. -/
def AbstractMetaClass.qualifiedCppName (c : AbstractMetaClass) : String :=
  c.typeEntry.qualifiedCppName

/-- The class-list lookup by descriptor (findClass of the source model):
the first class whose descriptor is the given one. -/
def findClass (classes : List AbstractMetaClass) (entry : TypeEntry) :
    Option AbstractMetaClass :=
  classes.find? (fun c => c.typeEntry == entry)

/- ## Generator predicates (generator.cpp, lines 289-313) -/

/-- Object-category test on a descriptor: a complex descriptor is an
object when flagged object or qt-object; otherwise the plain object
flag decides. -/
def isObjectTypeEntry (t : TypeEntry) : Bool :=
  if t.isComplex then t.isObject || t.isQObject else t.isObject

/-- Object-category test on a type instantiation: the object or qt-object
usage-pattern flag. -/
def isObjectTypeT (t : AbstractMetaType) : Bool :=
  t.isObject || t.isQObject

/-- Pointer test on a type instantiation: positive indirection, or the
native-pointer or value-pointer usage pattern. -/
def isPointer (t : AbstractMetaType) : Bool :=
  decide (t.indirections > 0) || t.isNativePointer || t.isValuePointer

/- ## Minimal-constructor synthesis (generator.cpp, lines 315-473) -/

/-- Minimal constructor for a bare descriptor: a zero-value cast for a
built-in primitive, a qualified zero-value cast for an enum or flags
descriptor, the declared default-construction expression of a
user-defined primitive (with a heuristic global-scope default call when
absent), and failure (the empty string) for everything else. -/
def minimalConstructorEntry : Option TypeEntry → String
  | none => ""
  | some type =>
    if type.isCppPrimitive then "((" ++ type.qualifiedCppName ++ ")0)"
    else if type.isEnum || type.isFlags then "((::" ++ type.qualifiedCppName ++ ")0)"
    else if type.isPrimitive then
      if type.defaultConstructor = "" then "::" ++ type.qualifiedCppName ++ "()"
      else type.defaultConstructor
    else ""

/-- Comma-joined argument list, as the string-list join of the source. -/
def joinArgs (args : List String) : String :=
  String.intercalate ", " args

/-- A qualified constructor call with the given argument expressions. -/
def ctorCall (qname : String) (args : List String) : String :=
  "::" ++ qname ++ "(" ++ joinArgs args ++ ")"

/-- The candidate scan computing the maximal argument count: skip
user-added, private and copy constructors; a zero-argument candidate
resets the count to zero and stops the scan; otherwise keep the
maximum. -/
def computeMaxArgs (acc : Nat) : List AbstractMetaFunction → Nat
  | [] => acc
  | c :: rest =>
    if c.isUserAdded || c.isPrivate || c.isCopyConstructor then computeMaxArgs acc rest
    else if c.arguments.length = 0 then 0
    else computeMaxArgs (Nat.max acc c.arguments.length) rest

/-- First-pass argument building for one candidate constructor.  An
argument whose descriptor is the descriptor of the class itself aborts
the candidate (empty result).  An argument with a non-empty original
default-value expression stops consumption: the effective expression is
appended only when it is non-empty and differs from the original.  An
argument whose descriptor is a built-in primitive or enum, or whose
type is pointer-shaped, is synthesized recursively, aborting the
candidate when synthesis fails.  Any other argument aborts the
candidate. -/
def buildArgsFirstPass (synth : AbstractMetaType → String) (classEntry : TypeEntry) :
    List AbstractMetaArgument → List String → List String
  | [], acc => acc
  | arg :: rest, acc =>
    if arg.type.typeEntry == classEntry then []
    else if arg.originalDefaultValueExpression ≠ "" then
      if arg.defaultValueExpression ≠ "" ∧
          arg.defaultValueExpression ≠ arg.originalDefaultValueExpression then
        acc ++ [arg.defaultValueExpression]
      else acc
    else if arg.type.typeEntry.isCppPrimitive || arg.type.typeEntry.isEnum ||
        isPointer arg.type then
      let argValue := synth arg.type
      if argValue = "" then []
      else buildArgsFirstPass synth classEntry rest (acc ++ [argValue])
    else []

/-- One round of the first pass: the candidates of a fixed argument count,
in declaration order.  A candidate producing a non-empty argument list
returns its call immediately; every other candidate reaching the
argument-building step is retained in the second-pass pool. -/
def firstPassRound (synth : AbstractMetaType → String) (qname : String)
    (classEntry : TypeEntry) (i : Nat) :
    List AbstractMetaFunction → Option String × List AbstractMetaFunction
  | [] => (none, [])
  | c :: rest =>
    if c.isUserAdded || c.isPrivate || c.isCopyConstructor then
      firstPassRound synth qname classEntry i rest
    else if c.arguments.length ≠ i then
      firstPassRound synth qname classEntry i rest
    else
      let args := buildArgsFirstPass synth classEntry c.arguments []
      if args ≠ [] then (some (ctorCall qname args), [])
      else
        match firstPassRound synth qname classEntry i rest with
        | (r, pool) => (r, c :: pool)

/-- The first pass over the ascending argument counts, accumulating the
second-pass pool; a successful round returns its call immediately. -/
def firstPassAll (synth : AbstractMetaType → String) (qname : String)
    (classEntry : TypeEntry) (ctors : List AbstractMetaFunction) :
    List Nat → Option String × List AbstractMetaFunction
  | [] => (none, [])
  | i :: is =>
    match firstPassRound synth qname classEntry i ctors with
    | (some s, _) => (some s, [])
    | (none, pool) =>
      match firstPassAll synth qname classEntry ctors is with
      | (r, pool2) => (r, pool ++ pool2)

/-- Second-pass argument building: any argument type may be synthesized
recursively; the self-reference abort and the failure abort remain. -/
def buildArgsSecondPass (synth : AbstractMetaType → String) (classEntry : TypeEntry) :
    List AbstractMetaArgument → List String → List String
  | [], acc => acc
  | arg :: rest, acc =>
    if arg.type.typeEntry == classEntry then []
    else
      let argValue := synth arg.type
      if argValue = "" then []
      else buildArgsSecondPass synth classEntry rest (acc ++ [argValue])

/-- The second pass over the retained candidates: the first fully
successful candidate wins; otherwise synthesis fails. -/
def secondPass (synth : AbstractMetaType → String) (qname : String)
    (classEntry : TypeEntry) : List AbstractMetaFunction → String
  | [] => ""
  | c :: rest =>
    let args := buildArgsSecondPass synth classEntry c.arguments []
    if args ≠ [] then ctorCall qname args
    else secondPass synth qname classEntry rest

mutual

/-- Minimal constructor for a type instantiation (generator.cpp,
lines 315-346).  The fuel argument bounds the recursion depth through
the class graph; exhausted fuel yields failure. -/
def minimalConstructorType (classes : List AbstractMetaClass) :
    Nat → Option AbstractMetaType → String
  | 0, _ => ""
  | _ + 1, none => ""
  | fuel + 1, some ty =>
    if ty.isReference && isObjectTypeT ty then ""
    else if ty.isContainer then
      let ctor0 := ty.cppSignature
      if qEndsWith ctor0 "*" then "0"
      else
        let ctor1 := if qStartsWith ctor0 "const " then qRemoveLeft ctor0 6 else ctor0
        let ctor2 := if qEndsWith ctor1 "&" then qTrim (qChop ctor1 1) else ctor1
        "::" ++ ctor2 ++ "()"
    else if ty.isNativePointer then
      "((" ++ ty.typeEntry.qualifiedCppName ++ "*)0)"
    else if isPointer ty then
      "((::" ++ ty.typeEntry.qualifiedCppName ++ "*)0)"
    else if ty.typeEntry.isComplex then
      if ty.typeEntry.defaultConstructor ≠ "" then ty.typeEntry.defaultConstructor
      else minimalConstructorClass classes fuel (findClass classes ty.typeEntry)
    else minimalConstructorEntry (some ty.typeEntry)

/-- Minimal constructor for a class (generator.cpp, lines 371-473): the
declared default-construction expression when present; the plain
default-construction call when the candidate scan yields a maximal
argument count of zero; otherwise the two-pass candidate search. -/
def minimalConstructorClass (classes : List AbstractMetaClass) :
    Nat → Option AbstractMetaClass → String
  | 0, _ => ""
  | _ + 1, none => ""
  | fuel + 1, some metaClass =>
    let cType := metaClass.typeEntry
    if cType.hasDefaultConstructor then cType.defaultConstructor
    else
      let ctors := metaClass.constructors
      let maxArgs := computeMaxArgs 0 ctors
      if maxArgs = 0 then "::" ++ metaClass.qualifiedCppName ++ "()"
      else
        let synth := fun t => minimalConstructorType classes fuel (some t)
        match firstPassAll synth metaClass.qualifiedCppName cType ctors
            ((List.range maxArgs).map (fun k => k + 1)) with
        | (some s, _) => s
        | (none, pool) => secondPass synth metaClass.qualifiedCppName cType pool

end

/- ## Type translation (generator.cpp, lines 475-526) -/

/-- The option set of the translator; every option defaults to unset. -/
structure GenOptions where
  enumAsInts : Bool
  originalName : Bool
  excludeConst : Bool
  excludeReference : Bool
deriving DecidableEq, Repr

/-- The empty option set (the default argument of the source). -/
def noOptions : GenOptions := ⟨false, false, false, false⟩

/-- The initial substitution of the translator: inside a generic class, a
type carrying an original template type is replaced by it. -/
def resolveTemplateType (context : Option AbstractMetaClass)
    (cTypeIn : Option AbstractMetaType) : Option AbstractMetaType :=
  match context, cTypeIn with
  | some ctx, some t =>
    if ctx.typeEntry.isGenericClass && t.originalTemplateType.isSome then
      t.originalTemplateType
    else some t
  | _, _ => cTypeIn

/-- The length of the const token in the source (strlen of const). -/
def constLen : Nat := 5

/-- The original-name branch of the translator: the trimmed original
textual description; a trailing reference marker is dropped under the
reference-exclusion option; under the const-exclusion option only the
last const token is removed, and only when it sits at the trailing
position (within constLen + 1 characters of the end). -/
def originalNameBranch (t : AbstractMetaType) (options : GenOptions) : String :=
  let s0 := qTrim t.originalTypeDescription
  let s1 := if options.excludeReference && qEndsWith s0 "&" then qChop s0 1 else s0
  if options.excludeConst then
    let index := qLastIndexOf s1 "const"
    if (s1.data.length : Int) - (constLen + 1) ≤ index then
      qstringRemoveAt s1 index constLen
    else s1
  else s1

/-- The type translator (generator.cpp, lines 475-526).  The fuel bounds
the recursion through array element types; exhausted fuel yields the
empty string (unreachable for the finite types of the model). -/
def translateType : Nat → Option AbstractMetaType → Option AbstractMetaClass →
    GenOptions → String
  | 0, _, _, _ => ""
  | fuel + 1, cTypeIn, context, options =>
    match resolveTemplateType context cTypeIn with
    | none => "void"
    | some t =>
      if t.isArray then
        translateType fuel t.arrayElementType context options ++ "[]"
      else if options.enumAsInts && (t.isEnum || t.isFlags) then
        "int"
      else if options.originalName then
        originalNameBranch t options
      else if options.excludeConst || options.excludeReference then
        let c1 := if options.excludeConst then t.setConstant false else t
        let c2 := if options.excludeReference then c1.setReference false else c1
        let s := c2.cppSignature
        if !c2.typeEntry.isVoid && !c2.typeEntry.isCppPrimitive then "::" ++ s else s
      else t.cppSignature

/- ## Template substitution (generator.cpp, lines 211-237) -/

/-- The template-variable substitution.  The owning class of the function
is passed alongside it; the rendered argument-name list and the
rendered argument-declaration list are produced by external hooks and
are supplied as inputs.  Replacements run in the order of the source:
the owner-class placeholder, the positional argument placeholders, the
return-type placeholder, the function-name placeholder, and the two
argument-list placeholders (each of the last two only when the text at
that point contains it). -/
def replaceTemplateVariables (fuel : Nat) (argumentNamesText argumentsText : String)
    (ownerClass : Option AbstractMetaClass) (func : AbstractMetaFunction)
    (code : String) : String :=
  let code1 :=
    match ownerClass with
    | some cppClass => qreplace code "%TYPE" cppClass.name
    | none => code
  let code2 := func.arguments.foldl
    (fun c arg => qreplace c ("%" ++ toString (arg.argumentIndex + 1)) arg.name) code1
  let code3 := qreplace code2 "%RETURN_TYPE"
    (translateType fuel func.returnType ownerClass noOptions)
  let code4 := qreplace code3 "%FUNCTION_NAME" func.originalName
  let code5 :=
    if containsSub code4 "%ARGUMENT_NAMES" then
      qreplace code4 "%ARGUMENT_NAMES" argumentNamesText
    else code4
  if containsSub code5 "%ARGUMENTS" then qreplace code5 "%ARGUMENTS" argumentsText
  else code5

/- ## Code reindentation (generator.cpp, lines 239-272) -/

/-- A line consisting of whitespace only (the exact match of the
blank-line pattern of the source; the empty line also matches). -/
def allQSpace (l : List Char) : Bool :=
  l.all isQSpace

/-- The leading-whitespace width of the first line whose trimmed form is
non-empty: the index of its first non-whitespace character (zero when
there is none, and zero when every line is blank). -/
def spacesToRemoveOf : List String → Nat
  | [] => 0
  | line :: rest =>
    if qTrim line ≠ "" then
      match line.data.findIdx? (fun c => !isQSpace c) with
      | some k => k
      | none => 0
    else spacesToRemoveOf rest

/-- The trailing-whitespace chop of the source is the loop
while (line.end()->isSpace()) line.chop(1).  The end iterator of the
string points one past the last character, where the string data holds
its terminating null character; null is not a space, so the loop body
never executes and the line keeps its trailing whitespace. -/
def chopTrailingSpaceViaEnd (line : String) : String :=
  line

/-- The clamp of the removal width to the leading-whitespace run of the
line itself: scan at most spaces characters, counting while they are
whitespace; a read past the end of the line yields the terminating null
character, which is not whitespace and stops the scan. -/
def limitFor (line : List Char) : Nat → Nat
  | 0 => 0
  | n + 1 =>
    match line with
    | [] => 0
    | c :: rest => if isQSpace c then 1 + limitFor rest n else 0

/-- One output line of the reindenter: a line that is non-empty and not
blank is emitted with the indentor followed by the line with its
clamped leading run removed; every other line contributes nothing
before the line break. -/
def formatLineOut (spaces : Nat) (indentor : String) (line : String) : String :=
  if line ≠ "" ∧ allQSpace line.data = false then
    let line2 := chopTrailingSpaceViaEnd line
    let limit := limitFor line2.data spaces
    indentor ++ String.mk (line2.data.drop limit)
  else ""

/-- Split of a character list at every occurrence of a separator
character, keeping empty parts (the Qt split on a one-character
separator string). -/
def splitOnCharL (sep : Char) : List Char → List (List Char)
  | [] => [[]]
  | c :: rest =>
    let r := splitOnCharL sep rest
    if c = sep then [] :: r
    else
      match r with
      | [] => [[c]]
      | h :: t => (c :: h) :: t

/-- The line split of the source: split on the line-break character. -/
def splitLines (code : String) : List String :=
  (splitOnCharL (Char.ofNat 10) code.data).map String.mk

/-- The reindenter (formatCode of the source): split on line breaks,
compute the removal width from the first non-blank line, and emit one
output line (ending in a line break) per input line. -/
def formatCode (indentor : String) (code : String) : String :=
  let lst := splitLines code
  let spaces := spacesToRemoveOf lst
  lst.foldl (fun s line => s ++ formatLineOut spaces indentor line ++ "\n") ""

/- ## The generation driver counters (generator.cpp, lines 175-194) -/

/-- The outcome of the external hooks for one class in the driver loop:
the generation predicate, the nullity of the computed file name, and
whether the file sink reported changed content. -/
structure GeneratedClassRun where
  shouldGenerate : Bool
  fileNameIsNull : Bool
  fileOutDone : Bool
deriving DecidableEq, Repr

/-- One iteration of the driver loop over the counter pair (considered,
written): a class failing the predicate or lacking a file name is
skipped; otherwise the written counter is incremented when the sink
reports a change, and the considered counter is incremented. -/
def generateStep (counters : Nat × Nat) (c : GeneratedClassRun) : Nat × Nat :=
  if !c.shouldGenerate then counters
  else if c.fileNameIsNull then counters
  else (counters.1 + 1, counters.2 + (if c.fileOutDone then 1 else 0))

/-- The driver loop over the class list, threading the counter pair. -/
def generateRun (cs : List GeneratedClassRun) (st : Nat × Nat) : Nat × Nat :=
  cs.foldl generateStep st

/- ## Package-to-path mapping (generator.cpp, lines 534-539) -/

/-- The package-to-path mapping: an empty package name is replaced by the
configured package name discovered at setup, then every dot becomes the
platform path separator. -/
def subDirectoryForPackage (configuredPackage : String) (sep : Char)
    (packageName : String) : String :=
  let p := if packageName = "" then configuredPackage else packageName
  qreplace p "." (String.mk [sep])

/- ## Concrete model values used in witnesses and counterexamples -/

/-- A convenience constructor for a type instantiation without array
element, template origin or original description. -/
def mkSimpleType (e : TypeEntry) (ind : Nat)
    (isConst isRef isCont isNat isValP isObj isQObj isEn isFl isArr : Bool) :
    AbstractMetaType :=
  .mk ⟨e, ind, isConst, isRef, isCont, isNat, isValP, isObj, isQObj, isEn, isFl, isArr,
    none, none, ""⟩

/-- The built-in primitive int descriptor. -/
def intEntry : TypeEntry :=
  ⟨"int", "int", true, false, false, false, false, false, false, false, false, false, ""⟩

/-- A plain int instantiation. -/
def intType : AbstractMetaType :=
  mkSimpleType intEntry 0 false false false false false false false false false false

/-- A container descriptor whose qualified name carries its template
argument list. -/
def vectorEntry : TypeEntry :=
  ⟨"Vector<int>", "Vector<int>", false, false, false, false, false, false, false, false,
    false, false, ""⟩

/-- A plain container instantiation, canonical signature Vector<int>. -/
def vecContainerType : AbstractMetaType :=
  mkSimpleType vectorEntry 0 false false true false false false false false false false

/-- A container instantiation with one indirection and a reference,
canonical signature Vector<int>*&. -/
def vecPtrRefType : AbstractMetaType :=
  mkSimpleType vectorEntry 1 false true true false false false false false false false

/-- An object-category class descriptor named Widget. -/
def widgetEntry : TypeEntry :=
  ⟨"Widget", "Widget", false, false, false, false, true, true, false, false, false, false, ""⟩

/-- A Widget pointer instantiation (one indirection, object pattern). -/
def widgetPtrType : AbstractMetaType :=
  mkSimpleType widgetEntry 1 false false false false false true false false false false

/-- A Widget pointer instantiation additionally marked native-pointer. -/
def widgetNativePtrType : AbstractMetaType :=
  mkSimpleType widgetEntry 1 false false false true false true false false false false

/-- A const Widget reference instantiation. -/
def constWidgetRefType : AbstractMetaType :=
  mkSimpleType widgetEntry 0 true true false false false false false false false false

/-- The option set with const exclusion and reference exclusion. -/
def excludeBothOptions : GenOptions := ⟨false, false, true, true⟩

/-- A value-class descriptor with no declared default-construction
expression. -/
def privOnlyEntry : TypeEntry :=
  ⟨"PrivOnly", "PrivOnly", false, false, false, false, true, false, false, true, false,
    false, ""⟩

/-- A private zero-argument constructor. -/
def privOnlyCtor : AbstractMetaFunction := ⟨"PrivOnly", false, true, false, [], none⟩

/-- A class whose only constructor is private. -/
def privOnlyClass : AbstractMetaClass := ⟨privOnlyEntry, "PrivOnly", "", [privOnlyCtor]⟩

/-- A value-class descriptor for the zero-argument-candidate example. -/
def cDemoEntry : TypeEntry :=
  ⟨"C", "C", false, false, false, false, true, false, false, true, false, false, ""⟩

/-- An int argument without default values. -/
def intArgA : AbstractMetaArgument := ⟨"a", 0, intType, "", ""⟩

/-- A public one-argument constructor. -/
def cCtorOneArg : AbstractMetaFunction := ⟨"C", false, false, false, [intArgA], none⟩

/-- A public zero-argument constructor. -/
def cCtorZero : AbstractMetaFunction := ⟨"C", false, false, false, [], none⟩

/-- A class with a zero-argument candidate among candidates with
arguments. -/
def cZeroArgClass : AbstractMetaClass := ⟨cDemoEntry, "C", "", [cCtorOneArg, cCtorZero]⟩

/-- An int argument whose original default-value text is 1 and whose
effective default-value text is 2. -/
def overriddenDefaultArg : AbstractMetaArgument := ⟨"d", 0, intType, "1", "2"⟩

/-- A class whose name contains a positional placeholder. -/
def ownerPercentClass : AbstractMetaClass := ⟨widgetEntry, "A%1", "", []⟩

/-- A one-argument function (argument named x at index zero) used by the
substitution examples. -/
def percentFunc : AbstractMetaFunction :=
  ⟨"f", false, false, false, [⟨"x", 0, intType, "", ""⟩], none⟩

/-- A driver run over four classes: generated and changed, skipped for a
null file name, skipped by the predicate, generated and unchanged. -/
def demoRunList : List GeneratedClassRun :=
  [⟨true, false, true⟩, ⟨true, true, true⟩, ⟨false, false, true⟩, ⟨true, false, false⟩]

/- ## Helper lemmas -/

theorem replaceAllGo_of_not_contains (pat rep : List Char) (n : Nat)
    (s : List Char) (h : containsSubL pat s = false) :
    replaceAllGo pat rep n s = s := by
  induction n generalizing s with
  | zero => rfl
  | succ n ih =>
    cases s with
    | nil => rfl
    | cons c rest =>
      rw [containsSubL] at h
      simp only [Bool.or_eq_false_iff] at h
      rw [replaceAllGo]
      rw [if_neg (by simp [h.1])]
      rw [ih rest h.2]

theorem replaceAllL_of_not_contains (pat rep s : List Char)
    (h : containsSubL pat s = false) : replaceAllL pat rep s = s :=
  replaceAllGo_of_not_contains pat rep s.length s h

theorem qreplace_of_not_contains (s pat rep : String)
    (h : containsSub s pat = false) : qreplace s pat rep = s := by
  unfold qreplace
  rw [replaceAllL_of_not_contains pat.data rep.data s.data h]

theorem replaceAllL_ne_nil (pat rep s : List Char) (hrep : rep ≠ [])
    (hs : s ≠ []) : replaceAllL pat rep s ≠ [] := by
  cases s with
  | nil => exact absurd rfl hs
  | cons c rest =>
    rw [replaceAllL]
    rw [List.length_cons]
    rw [replaceAllGo]
    split
    · simp [hrep]
    · simp

theorem computeMaxArgs_skip_all (l : List AbstractMetaFunction) (acc : Nat)
    (h : ∀ k ∈ l, (k.isUserAdded || k.isPrivate || k.isCopyConstructor) = true) :
    computeMaxArgs acc l = acc := by
  induction l generalizing acc with
  | nil => rfl
  | cons c rest ih =>
    rw [computeMaxArgs]
    rw [if_pos (by simpa using h c (by simp))]
    exact ih acc (fun k hk => h k (by simp [hk]))

theorem computeMaxArgs_zero_of_zero_arg_candidate (l : List AbstractMetaFunction)
    (acc : Nat)
    (h : ∃ k ∈ l, (k.isUserAdded || k.isPrivate || k.isCopyConstructor) = false ∧
      k.arguments = []) :
    computeMaxArgs acc l = 0 := by
  induction l generalizing acc with
  | nil => simp at h
  | cons c rest ih =>
    obtain ⟨k, hk, hcand, hargs⟩ := h
    rw [computeMaxArgs]
    by_cases hskip : (c.isUserAdded || c.isPrivate || c.isCopyConstructor) = true
    · rw [if_pos (by simpa using hskip)]
      have hkr : k ∈ rest := by
        rcases List.mem_cons.mp hk with h1 | h2
        · exact absurd (h1 ▸ hskip) (by simp [hcand])
        · exact h2
      exact ih acc ⟨k, hkr, hcand, hargs⟩
    · rw [if_neg hskip]
      by_cases hlen : c.arguments.length = 0
      · rw [if_pos hlen]
      · rw [if_neg hlen]
        have hkr : k ∈ rest := by
          rcases List.mem_cons.mp hk with h1 | h2
          · subst h1; simp [hargs] at hlen
          · exact h2
        exact ih _ ⟨k, hkr, hcand, hargs⟩

theorem foldl_qreplace_of_not_contains (l : List AbstractMetaArgument) (code : String)
    (h : ∀ a ∈ l, containsSub code ("%" ++ toString (a.argumentIndex + 1)) = false) :
    l.foldl (fun c a => qreplace c ("%" ++ toString (a.argumentIndex + 1)) a.name) code
      = code := by
  induction l with
  | nil => rfl
  | cons a rest ih =>
    rw [List.foldl_cons]
    rw [qreplace_of_not_contains _ _ _ (h a (by simp))]
    exact ih (fun b hb => h b (by simp [hb]))

theorem setConstant_typeEntry (t : AbstractMetaType) (b : Bool) :
    (t.setConstant b).typeEntry = t.typeEntry := by cases t; rfl

theorem setConstant_indirections (t : AbstractMetaType) (b : Bool) :
    (t.setConstant b).indirections = t.indirections := by cases t; rfl

theorem setConstant_isConstant (t : AbstractMetaType) (b : Bool) :
    (t.setConstant b).isConstant = b := by cases t; rfl

theorem setConstant_isReference (t : AbstractMetaType) (b : Bool) :
    (t.setConstant b).isReference = t.isReference := by cases t; rfl

theorem setReference_typeEntry (t : AbstractMetaType) (b : Bool) :
    (t.setReference b).typeEntry = t.typeEntry := by cases t; rfl

theorem setReference_indirections (t : AbstractMetaType) (b : Bool) :
    (t.setReference b).indirections = t.indirections := by cases t; rfl

theorem setReference_isConstant (t : AbstractMetaType) (b : Bool) :
    (t.setReference b).isConstant = t.isConstant := by cases t; rfl

theorem setReference_isReference (t : AbstractMetaType) (b : Bool) :
    (t.setReference b).isReference = b := by cases t; rfl

/- ## Claim theorems -/

/-- Claim C1 (counterexample): for a class whose only constructor is
private and whose descriptor declares no default-construction
expression, synthesize does not return the empty result: the candidate
scan leaves the maximal argument count at zero and the code returns the
plain default-construction call. -/
theorem minimalConstructorClass_private_only_counterexample :
    minimalConstructorClass [] 1 (some privOnlyClass) = "::PrivOnly()" ∧
    ("::PrivOnly()" : String) ≠ "" := by
  exact ⟨rfl, by decide⟩

/-- Claim C1 (amended): for every class with no declared
default-construction expression whose constructor list holds no
candidate at all (every constructor is user-added, private or a copy
constructor, or the list is empty), synthesize returns the plain
global-scope default-construction call on the class, not the empty
result. -/
theorem minimalConstructorClass_no_candidate_defaults (classes : List AbstractMetaClass)
    (fuel : Nat) (c : AbstractMetaClass)
    (hdef : c.typeEntry.defaultConstructor = "")
    (hall : ∀ k ∈ c.constructors,
      (k.isUserAdded || k.isPrivate || k.isCopyConstructor) = true) :
    minimalConstructorClass classes (fuel + 1) (some c) =
      "::" ++ c.qualifiedCppName ++ "()" := by
  have hmax : computeMaxArgs 0 c.constructors = 0 :=
    computeMaxArgs_skip_all c.constructors 0 hall
  simp [minimalConstructorClass, TypeEntry.hasDefaultConstructor, hdef, hmax]

/-- Claim C1 (witness): the amended claim at the class with a single
private constructor. -/
theorem minimalConstructorClass_no_candidate_defaults_witness :
    privOnlyClass.typeEntry.defaultConstructor = "" ∧
    minimalConstructorClass [] 1 (some privOnlyClass) =
      "::" ++ privOnlyClass.qualifiedCppName ++ "()" := by
  exact ⟨rfl, minimalConstructorClass_no_candidate_defaults [] 0 privOnlyClass rfl
    (by decide)⟩

/-- Claim C3: for every class with no declared default-construction
expression, the presence of a zero-argument candidate constructor
(public, not user-added, not a copy constructor) makes synthesize
return the plain global-scope default-construction call, whatever the
other constructors are. -/
theorem minimalConstructorClass_zero_arg_candidate_wins
    (classes : List AbstractMetaClass) (fuel : Nat) (c : AbstractMetaClass)
    (hdef : c.typeEntry.defaultConstructor = "")
    (hex : ∃ k ∈ c.constructors,
      (k.isUserAdded || k.isPrivate || k.isCopyConstructor) = false ∧
      k.arguments = []) :
    minimalConstructorClass classes (fuel + 1) (some c) =
      "::" ++ c.qualifiedCppName ++ "()" := by
  have hmax : computeMaxArgs 0 c.constructors = 0 :=
    computeMaxArgs_zero_of_zero_arg_candidate c.constructors 0 hex
  simp [minimalConstructorClass, TypeEntry.hasDefaultConstructor, hdef, hmax]

/-- Claim C3 (witness): the class with a public one-argument constructor
followed by a public zero-argument constructor yields the plain call. -/
theorem minimalConstructorClass_zero_arg_candidate_wins_witness :
    cZeroArgClass.typeEntry.defaultConstructor = "" ∧
    minimalConstructorClass [] 2 (some cZeroArgClass) =
      "::" ++ cZeroArgClass.qualifiedCppName ++ "()" := by
  exact ⟨rfl, minimalConstructorClass_zero_arg_candidate_wins [] 1 cZeroArgClass rfl
    ⟨cCtorZero, List.mem_cons_of_mem _ (List.mem_cons_self _ _), by decide, rfl⟩⟩

/-- Claim C5: in first-pass candidate argument building, an argument
carrying a non-empty original default-value expression (and whose type
is not the class itself, which is checked first) stops argument
consumption: the effective expression is appended exactly when it is
non-empty and differs from the original, and the remaining arguments of
the candidate are never consumed (the result does not depend on
them). -/
theorem buildArgsFirstPass_default_value_stop (synth : AbstractMetaType → String)
    (classEntry : TypeEntry) (arg : AbstractMetaArgument)
    (rest : List AbstractMetaArgument) (acc : List String)
    (hself : (arg.type.typeEntry == classEntry) = false)
    (horig : arg.originalDefaultValueExpression ≠ "") :
    buildArgsFirstPass synth classEntry (arg :: rest) acc =
      if arg.defaultValueExpression ≠ "" ∧
          arg.defaultValueExpression ≠ arg.originalDefaultValueExpression then
        acc ++ [arg.defaultValueExpression]
      else acc := by
  simp [buildArgsFirstPass, hself, horig]

/-- Claim C5 (witness): an int argument with original default 1 and
effective default 2 contributes the literal 2 and stops, ignoring the
following argument. -/
theorem buildArgsFirstPass_default_value_stop_witness :
    (overriddenDefaultArg.type.typeEntry == privOnlyEntry) = false ∧
    overriddenDefaultArg.originalDefaultValueExpression ≠ "" ∧
    buildArgsFirstPass (fun _ => "") privOnlyEntry [overriddenDefaultArg, intArgA] []
      = [overriddenDefaultArg.defaultValueExpression] := by
  refine ⟨by decide, by decide, ?_⟩
  have h := buildArgsFirstPass_default_value_stop (fun _ => "") privOnlyEntry
    overriddenDefaultArg [intArgA] [] (by decide) (by decide)
  rw [h]
  rw [if_pos (by decide)]
  rfl

/-- Claim C2 (counterexample): for a container instantiation whose
canonical signature is Vector<int>*& — a trailing reference marker over
a pointer marker — the code checks the pointer marker on the unstripped
signature first, finds none at the end, strips the reference marker and
returns a default-construction call on a pointer name, where the claim
(stripping first, then checking the pointer marker) demands the
null-pointer literal. -/
theorem minimalConstructorType_container_ptr_ref_counterexample :
    vecPtrRefType.cppSignature = "Vector<int>*&" ∧
    minimalConstructorType [] 1 (some vecPtrRefType) = "::Vector<int>*()" ∧
    ("::Vector<int>*()" : String) ≠ "0" := by
  exact ⟨rfl, rfl, by decide⟩

/-- Claim C2 (amended): for every container instantiation (not a reference
to an object-category type), synthesize first checks the unstripped
canonical signature: a trailing pointer marker yields the null-pointer
literal; otherwise a leading const qualifier and then a trailing
reference marker (with trailing-whitespace trim) are stripped, and the
result is a global-scope default-construction call on the stripped
name. -/
theorem minimalConstructorType_container_spec (classes : List AbstractMetaClass)
    (fuel : Nat) (t : AbstractMetaType)
    (hc : t.isContainer = true)
    (href : (t.isReference && isObjectTypeT t) = false) :
    minimalConstructorType classes (fuel + 1) (some t) =
      if qEndsWith t.cppSignature "*" then "0"
      else
        "::" ++
          (let c1 := if qStartsWith t.cppSignature "const " then
              qRemoveLeft t.cppSignature 6 else t.cppSignature
           let c2 := if qEndsWith c1 "&" then qTrim (qChop c1 1) else c1
           c2) ++ "()" := by
  simp [minimalConstructorType, hc, href]

/-- Claim C2 (witness): the amended claim at the bare container
instantiation with canonical signature Vector<int>, which yields the
global-scope default-construction call. -/
theorem minimalConstructorType_container_spec_witness :
    vecContainerType.isContainer = true ∧
    minimalConstructorType [] 1 (some vecContainerType) = "::Vector<int>()" := by
  refine ⟨rfl, ?_⟩
  have h := minimalConstructorType_container_spec [] 0 vecContainerType rfl rfl
  rw [h]
  rfl

/-- Claim C4 (counterexample): a pointer instantiation with one
indirection whose entry is named Widget but which carries the
native-pointer mark yields the null-pointer cast without the
global-scope qualifier, where the claim demands the qualified form for
every indirection of at least one. -/
theorem minimalConstructorType_native_pointer_counterexample :
    widgetNativePtrType.indirections = 1 ∧
    widgetNativePtrType.isContainer = false ∧
    minimalConstructorType [] 1 (some widgetNativePtrType) = "((Widget*)0)" ∧
    ("((Widget*)0)" : String) ≠ "((::Widget*)0)" := by
  exact ⟨rfl, rfl, rfl, by decide⟩

/-- Claim C4 (amended): for every non-container instantiation with
indirection at least one whose entry has qualified name Widget, that is
not marked native-pointer and is not a reference to an object-category
type, synthesize returns the global-scope qualified null-pointer cast;
a native-pointer-marked instantiation instead drops the global-scope
qualifier. -/
theorem minimalConstructorType_pointer_null_cast (classes : List AbstractMetaClass)
    (fuel : Nat) (t : AbstractMetaType)
    (hcont : t.isContainer = false)
    (hnat : t.isNativePointer = false)
    (href : (t.isReference && isObjectTypeT t) = false)
    (hind : 1 ≤ t.indirections)
    (hname : t.typeEntry.qualifiedCppName = "Widget") :
    minimalConstructorType classes (fuel + 1) (some t) = "((::Widget*)0)" := by
  have hp : isPointer t = true := by
    simp [isPointer]
    left
    omega
  simp [minimalConstructorType, hcont, hnat, href, hp, hname]

/-- Claim C4 (witness): the plain Widget pointer instantiation. -/
theorem minimalConstructorType_pointer_null_cast_witness :
    widgetPtrType.isContainer = false ∧ 1 ≤ widgetPtrType.indirections ∧
    minimalConstructorType [] 1 (some widgetPtrType) = "((::Widget*)0)" := by
  exact ⟨rfl, by decide, minimalConstructorType_pointer_null_cast [] 0 widgetPtrType
    rfl rfl rfl (by decide) rfl⟩

/-- Claim C6: for every non-array type not rendered as an integer enum,
without the original-name option but with const exclusion or reference
exclusion set (and not replaced by an original template type), the
translator renders the canonical signature of a copy with the requested
qualifiers cleared and prepends the global-scope qualifier unless the
descriptor is void or a built-in primitive. -/
theorem translateType_exclude_qualifiers (fuel : Nat) (t : AbstractMetaType)
    (context : Option AbstractMetaClass) (opts : GenOptions)
    (hres : resolveTemplateType context (some t) = some t)
    (harr : t.isArray = false)
    (henum : (opts.enumAsInts && (t.isEnum || t.isFlags)) = false)
    (horig : opts.originalName = false)
    (hex : opts.excludeConst = true ∨ opts.excludeReference = true) :
    translateType (fuel + 1) (some t) context opts =
      (if !t.typeEntry.isVoid && !t.typeEntry.isCppPrimitive then "::" else "")
        ++ ((if !opts.excludeConst && t.isConstant then "const " else "")
          ++ t.typeEntry.qualifiedCppName
          ++ String.mk (List.replicate t.indirections '*')
          ++ (if !opts.excludeReference && t.isReference then "&" else "")) := by
  have hexb : (opts.excludeConst || opts.excludeReference) = true := by
    rcases hex with h | h <;> simp [h]
  simp only [translateType, hres]
  rcases hoc : opts.excludeConst <;> rcases hor : opts.excludeReference <;>
    simp_all [AbstractMetaType.cppSignature, setConstant_typeEntry,
      setConstant_indirections, setConstant_isConstant, setConstant_isReference,
      setReference_typeEntry, setReference_indirections, setReference_isConstant,
      setReference_isReference]
  all_goals
    have hcond : ¬ (opts.enumAsInts = true ∧ (t.isEnum = true ∨ t.isFlags = true)) := by
      rintro ⟨he, hef⟩
      rcases henum he with ⟨e1, e2⟩
      rcases hef with h | h <;> simp_all
  all_goals rw [if_neg hcond]
  all_goals split <;> rfl

/-- Claim C6 (witness): translating a const Widget reference with const
exclusion and reference exclusion yields the qualified bare name. -/
theorem translateType_exclude_qualifiers_witness :
    resolveTemplateType none (some constWidgetRefType) = some constWidgetRefType ∧
    translateType 1 (some constWidgetRefType) none excludeBothOptions = "::Widget" := by
  refine ⟨rfl, ?_⟩
  have h := translateType_exclude_qualifiers 0 constWidgetRefType none
    excludeBothOptions rfl rfl rfl rfl (Or.inl rfl)
  rw [h]
  rfl

/-- Claim C7 (counterexample): the substitutions run as a sequence of
literal replacements, so a positional placeholder introduced by an
earlier substitution is expanded by a later one: with owner-class name
A%1 and first argument named x, the template %TYPE expands to Ax, where
the claim demands A%1. -/
theorem replaceTemplateVariables_reexpansion_counterexample :
    replaceTemplateVariables 1 "" "" (some ownerPercentClass) percentFunc "%TYPE"
      = "Ax" ∧ ("Ax" : String) ≠ "A%1" := by
  exact ⟨rfl, by decide⟩

/-- Claim C7 (amended): expand performs its substitutions as one fixed
sequence of literal text replacements (owner class, positional
arguments, return type, function name, argument lists), so text
introduced by an earlier replacement is still subject to the later
ones; and when the input contains no recognized placeholder at all the
output equals the input. -/
theorem replaceTemplateVariables_identity_without_placeholders (fuel : Nat)
    (argumentNamesText argumentsText : String) (owner : Option AbstractMetaClass)
    (func : AbstractMetaFunction) (code : String)
    (h1 : containsSub code "%TYPE" = false)
    (h2 : ∀ a ∈ func.arguments,
      containsSub code ("%" ++ toString (a.argumentIndex + 1)) = false)
    (h3 : containsSub code "%RETURN_TYPE" = false)
    (h4 : containsSub code "%FUNCTION_NAME" = false)
    (h5 : containsSub code "%ARGUMENT_NAMES" = false)
    (h6 : containsSub code "%ARGUMENTS" = false) :
    replaceTemplateVariables fuel argumentNamesText argumentsText owner func code
      = code := by
  unfold replaceTemplateVariables
  have e1 : (match owner with
      | some cppClass => qreplace code "%TYPE" cppClass.name
      | none => code) = code := by
    cases owner with
    | none => rfl
    | some cppClass => exact qreplace_of_not_contains code "%TYPE" cppClass.name h1
  rw [e1]
  dsimp only
  rw [foldl_qreplace_of_not_contains func.arguments code h2]
  rw [qreplace_of_not_contains code "%RETURN_TYPE" _ h3]
  rw [qreplace_of_not_contains code "%FUNCTION_NAME" _ h4]
  have e5 : (if containsSub code "%ARGUMENT_NAMES" = true then
      qreplace code "%ARGUMENT_NAMES" argumentNamesText else code) = code :=
    if_neg (by simp only [Bool.not_eq_true]; exact h5)
  rw [e5]
  rw [if_neg (by simp only [Bool.not_eq_true]; exact h6)]

/-- Claim C7 (witness): a template without any recognized placeholder is
returned unchanged. -/
theorem replaceTemplateVariables_identity_witness :
    containsSub "hello world" "%TYPE" = false ∧
    replaceTemplateVariables 1 "nm" "ar" (some ownerPercentClass) percentFunc
      "hello world" = "hello world" := by
  refine ⟨by decide, ?_⟩
  exact replaceTemplateVariables_identity_without_placeholders 1 "nm" "ar"
    (some ownerPercentClass) percentFunc "hello world" (by decide) (by decide)
    (by decide) (by decide) (by decide) (by decide)

/-- Claim C8 (evaluation at the failing input): a single line with
trailing whitespace is emitted with that whitespace intact, because the
trailing-whitespace loop of the source tests the character one past the
end of the line — the terminating null — and therefore never runs; the
claim demands the trailing whitespace stripped. -/
theorem formatCode_trailing_whitespace_eval :
    formatCode "" "int x;   " = "int x;   \n" ∧
    ("int x;   \n" : String) ≠ "int x;\n" := by
  exact ⟨rfl, by decide⟩

/-- One driver step never decreases either counter. -/
theorem generateStep_mono (st : Nat × Nat) (c : GeneratedClassRun) :
    st.1 ≤ (generateStep st c).1 ∧ st.2 ≤ (generateStep st c).2 := by
  unfold generateStep
  split
  · exact ⟨Nat.le_refl _, Nat.le_refl _⟩
  · split
    · exact ⟨Nat.le_refl _, Nat.le_refl _⟩
    · exact ⟨Nat.le_succ _, Nat.le_add_right _ _⟩

/-- The driver loop never decreases either counter. -/
theorem generateRun_mono (cs : List GeneratedClassRun) (st : Nat × Nat) :
    st.1 ≤ (generateRun cs st).1 ∧ st.2 ≤ (generateRun cs st).2 := by
  induction cs generalizing st with
  | nil => exact ⟨Nat.le_refl _, Nat.le_refl _⟩
  | cons c rest ih =>
    have h1 := generateStep_mono st c
    have h2 := ih (generateStep st c)
    exact ⟨Nat.le_trans h1.1 h2.1, Nat.le_trans h1.2 h2.2⟩

/-- One driver step preserves the written-at-most-considered relation. -/
theorem generateStep_le (st : Nat × Nat) (c : GeneratedClassRun)
    (h : st.2 ≤ st.1) : (generateStep st c).2 ≤ (generateStep st c).1 := by
  unfold generateStep
  split
  · exact h
  · split
    · exact h
    · split <;> omega

/-- The driver loop preserves the written-at-most-considered relation. -/
theorem generateRun_le (cs : List GeneratedClassRun) (st : Nat × Nat)
    (h : st.2 ≤ st.1) : (generateRun cs st).2 ≤ (generateRun cs st).1 := by
  induction cs generalizing st with
  | nil => exact h
  | cons c rest ih => exact ih _ (generateStep_le st c h)

/-- The considered counter counts the classes passing the predicate and
the file-name check. -/
theorem generateRun_fst_count (cs : List GeneratedClassRun) (st : Nat × Nat) :
    (generateRun cs st).1 =
      st.1 + (cs.filter (fun c => c.shouldGenerate && !c.fileNameIsNull)).length := by
  induction cs generalizing st with
  | nil => rfl
  | cons c rest ih =>
    have hr : generateRun (c :: rest) st = generateRun rest (generateStep st c) := rfl
    rw [hr, ih]
    rcases hs : c.shouldGenerate <;> rcases hf : c.fileNameIsNull <;>
      simp [generateStep, List.filter_cons, hs, hf] <;> omega

/-- The written counter counts the classes passing the predicate and the
file-name check whose sink reported changed content. -/
theorem generateRun_snd_count (cs : List GeneratedClassRun) (st : Nat × Nat) :
    (generateRun cs st).2 =
      st.2 + (cs.filter
        (fun c => c.shouldGenerate && !c.fileNameIsNull && c.fileOutDone)).length := by
  induction cs generalizing st with
  | nil => rfl
  | cons c rest ih =>
    have hr : generateRun (c :: rest) st = generateRun rest (generateStep st c) := rfl
    rw [hr, ih]
    rcases hs : c.shouldGenerate <;> rcases hf : c.fileNameIsNull <;>
      rcases hd : c.fileOutDone <;>
      simp [generateStep, List.filter_cons, hs, hf, hd] <;> omega

/-- Claim C9: the two driver counters never decrease across the loop; from
a state with written at most considered (in particular the fresh zero
state) the final written count is at most the final considered count;
and from the fresh state the considered counter equals the number of
classes passing the predicate and the file-name check, while the
written counter equals the number of those whose sink reported changed
content. -/
theorem generateRun_counter_invariants (cs : List GeneratedClassRun)
    (st : Nat × Nat) (h : st.2 ≤ st.1) :
    (st.1 ≤ (generateRun cs st).1 ∧ st.2 ≤ (generateRun cs st).2) ∧
    (generateRun cs st).2 ≤ (generateRun cs st).1 ∧
    (generateRun cs (0, 0)).1 =
      (cs.filter (fun c => c.shouldGenerate && !c.fileNameIsNull)).length ∧
    (generateRun cs (0, 0)).2 =
      (cs.filter
        (fun c => c.shouldGenerate && !c.fileNameIsNull && c.fileOutDone)).length := by
  refine ⟨generateRun_mono cs st, generateRun_le cs st h, ?_, ?_⟩
  · rw [generateRun_fst_count cs (0, 0)]
    simp
  · rw [generateRun_snd_count cs (0, 0)]
    simp

/-- Claim C9 (witness): the invariants at a concrete four-class run with
two considered classes, one of them written. -/
theorem generateRun_counter_invariants_witness :
    ((0 : Nat), (0 : Nat)).2 ≤ ((0 : Nat), (0 : Nat)).1 ∧
    ((((0, 0) : Nat × Nat).1 ≤ (generateRun demoRunList (0, 0)).1 ∧
      ((0, 0) : Nat × Nat).2 ≤ (generateRun demoRunList (0, 0)).2) ∧
    (generateRun demoRunList (0, 0)).2 ≤ (generateRun demoRunList (0, 0)).1 ∧
    (generateRun demoRunList (0, 0)).1 =
      (demoRunList.filter (fun c => c.shouldGenerate && !c.fileNameIsNull)).length ∧
    (generateRun demoRunList (0, 0)).2 =
      (demoRunList.filter
        (fun c => c.shouldGenerate && !c.fileNameIsNull && c.fileOutDone)).length) := by
  exact ⟨Nat.le_refl 0, generateRun_counter_invariants demoRunList (0, 0) (Nat.le_refl 0)⟩

/-- Claim C10: the package-to-path mapping at an empty package name is the
mapping at the configured package name: the configured name is
substituted before each dot becomes the separator, so a class with an
empty package is placed under the directory of the configured package,
which is non-empty whenever the configured name is. -/
theorem subDirectoryForPackage_empty_package (cfg : String) (sep : Char) :
    subDirectoryForPackage cfg sep "" = subDirectoryForPackage cfg sep cfg ∧
    subDirectoryForPackage cfg sep "" = qreplace cfg "." (String.mk [sep]) ∧
    (cfg ≠ "" → subDirectoryForPackage cfg sep "" ≠ "") := by
  refine ⟨?_, rfl, ?_⟩
  · unfold subDirectoryForPackage
    by_cases h : cfg = ""
    · simp [h]
    · simp [h]
  · intro h hcontra
    have hdata : replaceAllL (String.data ".") [sep] cfg.data = [] :=
      congrArg String.data hcontra
    have hne : cfg.data ≠ [] := by
      intro hl
      apply h
      cases cfg with
      | mk l =>
        simp only at hl
        rw [hl]
    exact replaceAllL_ne_nil _ _ _ (by simp) hne hdata

/-- Claim C10 (witness): with configured package a.b.c, the separator
slash, and an empty package name, the mapping is non-empty (the class
is not placed at the output root). -/
theorem subDirectoryForPackage_empty_package_witness :
    ("a.b.c" : String) ≠ "" ∧ subDirectoryForPackage "a.b.c" '/' "" ≠ "" := by
  exact ⟨by decide, (subDirectoryForPackage_empty_package "a.b.c" '/').2.2 (by decide)⟩

end GeneratorCore
